import Mathlib

/-!
Shallow embedding of the core game logic of the repository
(src/js/bird.js, src/js/pipe.js, src/js/score.js, src/js/input.js,
src/js/game-states.js).  JavaScript numbers are modelled as exact
rationals (all constants are small dyadic rationals and no float
rounding is observable at the inputs considered); timestamps are
integers (milliseconds); scores are naturals.  DOM, rendering, audio
and localStorage calls are presentation effects with no bearing on the
modelled state and are omitted.
-/

namespace Flappy

/-! ### Bird (src/js/bird.js) -/

/-- Fixed bird width set in the Bird constructor. -/
def birdWidth : ℚ := 20

/-- Fixed bird height set in the Bird constructor. -/
def birdHeight : ℚ := 20

/-- Gravity acceleration per tick (this.gravity = 0.5). -/
def gravity : ℚ := 1/2

/-- Jump impulse (this.jumpVelocity = -8). -/
def jumpVelocity : ℚ := -8

/-- Maximum fall velocity (this.maxFallVelocity = 12). -/
def maxFallVelocity : ℚ := 12

/-- Height of the ground strip, the literal 50 used by
Bird.isGrounded, PipeManager.generatePipe and the renderers. -/
def groundHeight : ℚ := 50

/-- Mutable state of the Bird object (visual colour fields omitted;
width/height are the fixed constants above). -/
structure Bird where
  x : ℚ
  y : ℚ
  velocity : ℚ
  rotation : ℚ
  targetRotation : ℚ
deriving DecidableEq

/-- The Bird constructor: position (x, y), velocity 0, rotation 0. -/
def Bird.init (x y : ℚ) : Bird := ⟨x, y, 0, 0, 0⟩

/-- Bird.update(): gravity is added to the velocity, the velocity is
clamped to maxFallVelocity, the position is advanced, y is clamped to 0
(zeroing the velocity) when the bird would leave the top of the screen,
and the rotation is eased one tenth of the way toward
clamp(velocity*3, -30, 90). -/
def Bird.update (b : Bird) : Bird :=
  let v1 := b.velocity + gravity
  let v2 := if v1 > maxFallVelocity then maxFallVelocity else v1
  let y1 := b.y + v2
  let y2 := if y1 < 0 then 0 else y1
  let v3 := if y1 < 0 then 0 else v2
  let tr := min (max (v3 * 3) (-30)) 90
  { b with y := y2, velocity := v3, targetRotation := tr,
           rotation := b.rotation + (tr - b.rotation) * (1/10) }

/-- Bird.jump(): the velocity is overwritten with the jump impulse and
the rotation snaps to -20. -/
def Bird.jump (b : Bird) : Bird :=
  { b with velocity := jumpVelocity, rotation := -20 }

/-- Bird.isGrounded(canvasHeight): the bottom edge of the bounding box
is compared against canvasHeight - 50 (50px of ground). -/
def Bird.isGrounded (b : Bird) (canvasHeight : ℚ) : Bool :=
  decide (b.y + birdHeight / 2 ≥ canvasHeight - groundHeight)

/-- Bird.isOutOfBounds(canvasHeight): the top edge of the bounding box
is compared against canvasHeight itself. -/
def Bird.isOutOfBounds (b : Bird) (canvasHeight : ℚ) : Bool :=
  decide (b.y - birdHeight / 2 > canvasHeight)

/-- Bird.reset(x, y): reposition and zero velocity and rotation. -/
def Bird.reset (b : Bird) (x y : ℚ) : Bird :=
  { b with x := x, y := y, velocity := 0, rotation := 0, targetRotation := 0 }

/-- Bird.bounce(): damped rebound used after the game has ended. -/
def Bird.bounce (b : Bird) : Bird :=
  { b with velocity := -b.velocity * (3/10), rotation := 0 }

/-- n successive Bird.update() calls. -/
def Bird.updateN : ℕ → Bird → Bird
  | 0, b => b
  | n + 1, b => (Bird.updateN n b).update

/-- One step of an interleaved update/jump call sequence. -/
inductive BirdOp where
  | tick : BirdOp
  | flap : BirdOp
deriving DecidableEq

/-- Apply one operation of an interleaved sequence to the bird. -/
def Bird.applyOp : BirdOp → Bird → Bird
  | BirdOp.tick, b => b.update
  | BirdOp.flap, b => b.jump

/-- Apply a whole interleaved sequence of update/jump calls. -/
def Bird.runOps : List BirdOp → Bird → Bird
  | [], b => b
  | op :: ops, b => Bird.runOps ops (Bird.applyOp op b)

/-! ### Pipes (src/js/pipe.js) -/

/-- Pipe width (this.pipeWidth = 40). -/
def pipeWidth : ℚ := 40

/-- Vertical gap size (this.gapSize = 100). -/
def gapSize : ℚ := 100

/-- Horizontal speed (this.pipeSpeed = 2). -/
def pipeSpeed : ℚ := 2

/-- Distance between pipe centres (this.pipeSpacing = 200). -/
def pipeSpacing : ℚ := 200

/-- Minimum gap distance from the edges (this.minGapHeight = 120). -/
def minGapHeight : ℚ := 120

/-- One pipe pair, as pushed by generatePipe.  The id is the external
draw Date.now() + Math.random(), modelled as a rational supplied by the
environment. -/
structure Pipe where
  x : ℚ
  gapY : ℚ
  scored : Bool
  id : ℚ
deriving DecidableEq

/-- Mutable state of the PipeManager (configuration constants are the
defs above; scoredPipes is the Set of already-scored pipe ids, modelled
as a list with membership semantics). -/
structure PipeManager where
  canvasWidth : ℚ
  canvasHeight : ℚ
  pipes : List Pipe
  scoredPipes : List ℚ
deriving DecidableEq

/-- The PipeManager constructor: empty pipe list and scored set. -/
def PipeManager.init (w h : ℚ) : PipeManager := ⟨w, h, [], []⟩

/-- PipeManager.generatePipe(): gapY = minGapHeight + r * (maxHeight -
minGapHeight) with maxHeight = canvasHeight - minGapHeight - gapSize -
50, where r is the Math.random() draw; a pipe at x = canvasWidth with
scored = false and the externally drawn id is appended. -/
def PipeManager.generatePipe (pm : PipeManager) (r newId : ℚ) : PipeManager :=
  let minHeight := minGapHeight
  let maxHeight := pm.canvasHeight - minGapHeight - gapSize - groundHeight
  let gapY := minHeight + r * (maxHeight - minHeight)
  { pm with pipes := pm.pipes ++ [⟨pm.canvasWidth, gapY, false, newId⟩] }

/-- One pipe moved left by pipeSpeed (pipe.x -= this.pipeSpeed). -/
def movePipe (p : Pipe) : Pipe := { p with x := p.x - pipeSpeed }

/-- The movement-and-cleanup loop of PipeManager.update(): each pipe is
moved left and then spliced out when x + pipeWidth < 0.  The source
iterates indices downward with splice, which is equivalent to this
in-order recursion. -/
def moveAndFilter : List Pipe → List Pipe
  | [] => []
  | p :: ps =>
      if (movePipe p).x + pipeWidth < 0 then moveAndFilter ps
      else movePipe p :: moveAndFilter ps

/-- The ids of the pipes the update loop splices out (the loop deletes
exactly these from the scoredPipes set). -/
def removedIdsOf : List Pipe → List ℚ
  | [] => []
  | p :: ps =>
      if (movePipe p).x + pipeWidth < 0 then (movePipe p).id :: removedIdsOf ps
      else removedIdsOf ps

/-- PipeManager.update(): every pipe moves left by pipeSpeed; pipes
with x + pipeWidth < 0 are spliced out and their ids deleted from the
scored set; afterwards a new pipe is generated when the list is empty
or the last pipe has x < canvasWidth - pipeSpacing.  r and newId stand
for the external draws consumed if generation happens. -/
def PipeManager.update (pm : PipeManager) (r newId : ℚ) : PipeManager :=
  let removed := removedIdsOf pm.pipes
  let pm1 : PipeManager :=
    { pm with pipes := moveAndFilter pm.pipes,
              scoredPipes := pm.scoredPipes.filter (fun i => decide (i ∉ removed)) }
  match pm1.pipes.getLast? with
  | none => pm1.generatePipe r newId
  | some p =>
      if p.x < pm1.canvasWidth - pipeSpacing then pm1.generatePipe r newId else pm1

/-- The body of the checkScore loop condition for one pipe: the bird
has passed the pipe's right edge and the pipe's id is not yet in the
scored set. -/
def PipeManager.qualifies (pm : PipeManager) (birdX : ℚ) (p : Pipe) : Bool :=
  decide (birdX > p.x + pipeWidth) && !pm.scoredPipes.contains p.id

/-- PipeManager.checkScore(bird): scan the pipes in storage order, mark
the first qualifying pipe's id as scored and return true, breaking out
of the loop; return false if none qualifies. -/
def PipeManager.checkScore (pm : PipeManager) (birdX : ℚ) : Bool × PipeManager :=
  match pm.pipes.find? (pm.qualifies birdX) with
  | some p => (true, { pm with scoredPipes := p.id :: pm.scoredPipes })
  | none => (false, pm)

/-- PipeManager.reset(): clear the pipes and the scored set. -/
def PipeManager.reset (pm : PipeManager) : PipeManager :=
  { pm with pipes := [], scoredPipes := [] }

/-- n successive PipeManager.update() calls, with the random draw fixed
to 0 and step k supplying the fresh id k + 1 for any generated pipe. -/
def runUpdates (pm : PipeManager) : ℕ → PipeManager
  | 0 => pm
  | n + 1 => (runUpdates pm n).update 0 ((n : ℚ) + 1)

/-- A pipe field on the real 320x568 canvas holding a single pipe that
was generated at x = 320 (id 0). -/
def pm320 : PipeManager := ⟨320, 568, [⟨320, 120, false, 0⟩], []⟩

/-! ### Score (src/js/score.js) -/

/-- Mutable scoring state (display/animation fields are DOM-side;
scorePerPipe is the constant 1). -/
structure ScoreManager where
  currentScore : ℕ
  highScore : ℕ
deriving DecidableEq

/-- ScoreManager.incrementScore(): the current score grows by
scorePerPipe = 1 and the high score is raised when exceeded (display,
animation, sound and localStorage writes omitted). -/
def ScoreManager.incrementScore (s : ScoreManager) : ScoreManager :=
  let c := s.currentScore + 1
  if c > s.highScore then ⟨c, c⟩ else ⟨c, s.highScore⟩

/-- ScoreManager.resetScore(): the current score returns to 0. -/
def ScoreManager.resetScore (s : ScoreManager) : ScoreManager :=
  ⟨0, s.highScore⟩

/-- ScoreManager.isNewHighScore(): currentScore > highScore ||
currentScore === highScore && currentScore > 0. -/
def ScoreManager.isNewHighScore (s : ScoreManager) : Bool :=
  decide (s.currentScore > s.highScore) ||
    (decide (s.currentScore = s.highScore) && decide (s.currentScore > 0))

/-! ### Input (src/js/input.js) -/

/-- Cooldown between accepted jumps (this.jumpCooldown = 100 ms). -/
def jumpCooldown : ℤ := 100

/-- Timing state of the InputHandler (subscriber lists and touch state
are modelled outside; lastJumpTime starts at 0). -/
structure InputHandler where
  lastJumpTime : ℤ
  isJumping : Bool
deriving DecidableEq

/-- The InputHandler constructor state. -/
def InputHandler.init : InputHandler := ⟨0, false⟩

/-- InputHandler.handleJump() at wall-clock time now: when
now - lastJumpTime < jumpCooldown the event is dropped (no callbacks
run, no state change); otherwise lastJumpTime is set to now and the
jump callbacks are triggered.  The returned Bool records whether
triggerCallbacks(jump) ran. -/
def InputHandler.handleJump (h : InputHandler) (now : ℤ) : Bool × InputHandler :=
  if now - h.lastJumpTime < jumpCooldown then (false, h)
  else (true, { h with lastJumpTime := now, isJumping := true })

/-! ### Game states (src/js/game-states.js) -/

/-- The three game states of the GameStateManager. -/
inductive GState where
  | menu : GState
  | playing : GState
  | gameOver : GState
deriving DecidableEq

/-- State of the GameStateManager together with the game objects it
holds references to (canvas, DOM and input-subscription wiring
omitted; collisionPoint is the recorded collision coordinate). -/
structure Game where
  canvasWidth : ℚ
  canvasHeight : ℚ
  bird : Bird
  pipeManager : PipeManager
  scoreManager : ScoreManager
  currentState : GState
  menuBirdY : ℚ
  menuBirdVelocity : ℚ
  collisionPoint : Option (ℚ × ℚ)
deriving DecidableEq

/-- GameStateManager.resetGameObjects(): bird back to (80, 200), pipes
cleared, score cleared, collision point cleared. -/
def Game.resetGameObjects (g : Game) : Game :=
  { g with bird := g.bird.reset 80 200,
           pipeManager := g.pipeManager.reset,
           scoreManager := g.scoreManager.resetScore,
           collisionPoint := none }

/-- enterMenuState(): reset the game objects and the menu bird
animation (screen visibility toggles omitted). -/
def Game.enterMenuState (g : Game) : Game :=
  { g.resetGameObjects with menuBirdY := 100, menuBirdVelocity := 0 }

/-- enterPlayingState(): reset the score (overlay visibility and the
games-played localStorage counter omitted). -/
def Game.enterPlayingState (g : Game) : Game :=
  { g with scoreManager := g.scoreManager.resetScore }

/-- enterGameOverState(): only DOM/sound/high-score-celebration
effects; no modelled state changes. -/
def Game.enterGameOverState (g : Game) : Game := g

/-- GameStateManager.setState(): record the new state and run its entry
action. -/
def Game.setState (g : Game) (s : GState) : Game :=
  let g1 := { g with currentState := s }
  match s with
  | GState.menu => g1.enterMenuState
  | GState.playing => g1.enterPlayingState
  | GState.gameOver => g1.enterGameOverState

/-- GameStateManager.startGame(). -/
def Game.startGame (g : Game) : Game := g.setState GState.playing

/-- GameStateManager.restartGame(): reset the game objects, then enter
Playing. -/
def Game.restartGame (g : Game) : Game :=
  g.resetGameObjects.setState GState.playing

/-- The gameStart subscriber installed by setupInputCallbacks: start
the game only from the menu state. -/
def Game.onGameStart (g : Game) : Game :=
  if g.currentState = GState.menu then g.startGame else g

/-- The gameRestart subscriber installed by setupInputCallbacks:
restart only from the game-over state. -/
def Game.onGameRestart (g : Game) : Game :=
  if g.currentState = GState.gameOver then g.restartGame else g

/-- The jump subscriber installed by setupInputCallbacks: the jump
impulse reaches the bird only in the playing state (the jump sound is
presentation). -/
def Game.onJump (g : Game) : Game :=
  if g.currentState = GState.playing then { g with bird := g.bird.jump } else g

/-! ### Concrete states used to instantiate the theorems -/

/-- p is the first pipe of the field that the checkScore loop condition
accepts: the pipes split as l1 ++ p :: l2, p qualifies, and nothing in
l1 before it does. -/
def IsFirstQualifying (pm : PipeManager) (birdX : ℚ) (p : Pipe) : Prop :=
  ∃ l1 l2, pm.pipes = l1 ++ p :: l2 ∧ pm.qualifies birdX p = true ∧
    ∀ q ∈ l1, pm.qualifies birdX q = false

/-- A pipe field in which two pipes are already behind the bird at
x = 80: both qualify for scoring in the same checkScore call. -/
def pmW : PipeManager := ⟨320, 568, [⟨10, 120, false, 1⟩, ⟨20, 130, false, 2⟩], []⟩

/-- A game sitting in the menu state. -/
def gMenu : Game :=
  ⟨320, 568, Bird.init 80 200, ⟨320, 568, [⟨300, 150, false, 5⟩], []⟩,
   ⟨0, 3⟩, GState.menu, 100, 0, none⟩

/-- A game sitting in the game-over state. -/
def gOver : Game :=
  ⟨320, 568, Bird.init 80 500, ⟨320, 568, [⟨60, 150, false, 5⟩], [5]⟩,
   ⟨2, 3⟩, GState.gameOver, 100, 0, some (80, 500)⟩

/-! ## Theorems -/

/-- Claim C2: isNewHighScore returns true if and only if
currentScore > bestScore, or currentScore = bestScore and
currentScore > 0; in particular (5, 5) yields true, (5, 6) yields
false and (0, 0) yields false. -/
theorem isNewHighScore_spec :
    (∀ s : ScoreManager, s.isNewHighScore = true ↔
      (s.highScore < s.currentScore ∨
        (s.currentScore = s.highScore ∧ 0 < s.currentScore))) ∧
    ScoreManager.isNewHighScore ⟨5, 5⟩ = true ∧
    ScoreManager.isNewHighScore ⟨5, 6⟩ = false ∧
    ScoreManager.isNewHighScore ⟨0, 0⟩ = false := by
  refine ⟨fun s => ?_, by decide, by decide, by decide⟩
  simp [ScoreManager.isNewHighScore]

/-- Claim C3, counterexample: for the bird at y = 100 and the argument
120, isGrounded returns true although the bottom edge 110 has not
reached 120 — so isGrounded(floorY) is not the predicate "bottom edge
reaches or passes floorY" of the same floorY that isOutOfBounds
compares the top edge against. -/
theorem isGrounded_floorY_counterexample :
    Bird.isGrounded ⟨80, 100, 0, 0, 0⟩ 120 = true ∧
    ¬ ((100 : ℚ) + birdHeight / 2 ≥ 120) := by
  constructor
  · simp only [Bird.isGrounded, birdHeight, groundHeight, decide_eq_true_eq]
    norm_num
  · norm_num [birdHeight]

/-- Claim C3, amended: isGrounded(h) is true exactly when the bounding
box bottom edge reaches or passes h - 50 (the ground line sits 50 px
above the canvas-height argument), while isOutOfBounds(h) is true
exactly when the top edge exceeds h itself. -/
theorem grounded_and_outOfBounds_spec (b : Bird) (h : ℚ) :
    (b.isGrounded h = true ↔ b.y + birdHeight / 2 ≥ h - groundHeight) ∧
    (b.isOutOfBounds h = true ↔ b.y - birdHeight / 2 > h) := by
  constructor <;> simp [Bird.isGrounded, Bird.isOutOfBounds]

/-- Claim C8: handleJump accepts an event at time now exactly when
now minus the last accepted time is at least the 100 ms cooldown;
accepted events update lastJumpTime and trigger the subscribers,
dropped events leave the state untouched and trigger nothing. -/
theorem handleJump_spec (h : InputHandler) (now : ℤ) :
    ((h.handleJump now).1 = true ↔ jumpCooldown ≤ now - h.lastJumpTime) ∧
    ((h.handleJump now).1 = true →
      (h.handleJump now).2 = ⟨now, true⟩) ∧
    ((h.handleJump now).1 = false → (h.handleJump now).2 = h) := by
  unfold InputHandler.handleJump
  split_ifs with hc
  · refine ⟨by simp; omega, by simp, fun _ => rfl⟩
  · refine ⟨by simp; omega, fun _ => rfl, by simp⟩

/-- Claim C8, witness: from a state whose last accepted jump was at
1000 ms, an event at 1050 ms is dropped without touching the state,
and an event at 1150 ms is accepted. -/
theorem handleJump_witness :
    ((InputHandler.mk 1000 true).handleJump 1050).1 = false ∧
    ((InputHandler.mk 1000 true).handleJump 1050).2 = InputHandler.mk 1000 true ∧
    ((InputHandler.mk 1000 true).handleJump 1150).1 = true := by
  refine ⟨by decide, ?_, ?_⟩
  · exact (handleJump_spec ⟨1000, true⟩ 1050).2.2 (by decide)
  · exact (handleJump_spec ⟨1000, true⟩ 1150).1.mpr (by decide)

/-- Claim C9: a gameStart event in the menu state moves the game to
the playing state and resets the current score to 0 while leaving the
pipe field untouched; the pipe field is cleared only by a restart from
the game-over state. -/
theorem start_event_spec (g : Game) :
    (g.currentState = GState.menu →
      g.onGameStart.currentState = GState.playing ∧
      g.onGameStart.scoreManager.currentScore = 0 ∧
      g.onGameStart.pipeManager = g.pipeManager) ∧
    (g.currentState = GState.gameOver →
      g.onGameRestart.pipeManager = g.pipeManager.reset) := by
  constructor
  · intro hm
    simp [Game.onGameStart, hm, Game.startGame, Game.setState,
          Game.enterPlayingState, ScoreManager.resetScore]
  · intro hg
    simp [Game.onGameRestart, hg, Game.restartGame, Game.setState,
          Game.enterPlayingState, Game.resetGameObjects]

/-- Claim C9, witness: the concrete menu-state game starts into
playing with score 0 and its pipe list unchanged. -/
theorem start_event_witness :
    gMenu.onGameStart.currentState = GState.playing ∧
    gMenu.onGameStart.scoreManager.currentScore = 0 ∧
    gMenu.onGameStart.pipeManager = gMenu.pipeManager :=
  (start_event_spec gMenu).1 rfl

/-- Claim C10: a jump event leaves the bird (y, velocity, rotation)
unchanged in the menu and game-over states; only in the playing state
does it apply the jump impulse to the bird. -/
theorem jump_event_spec (g : Game) :
    ((g.currentState = GState.menu ∨ g.currentState = GState.gameOver) →
      g.onJump.bird = g.bird) ∧
    (g.currentState = GState.playing → g.onJump.bird = g.bird.jump) := by
  constructor
  · rintro (h | h) <;> simp [Game.onJump, h]
  · intro h
    simp [Game.onJump, h]

/-- Claim C10, witness: the concrete menu-state and game-over-state
games keep their bird untouched by a jump event. -/
theorem jump_event_witness :
    gMenu.onJump.bird = gMenu.bird ∧ gOver.onJump.bird = gOver.bird :=
  ⟨(jump_event_spec gMenu).1 (Or.inl rfl),
   (jump_event_spec gOver).1 (Or.inr rfl)⟩

/-- Claim C5: for every random draw r in [0,1) on the 568-high canvas,
generatePipe appends one pipe at x = canvasWidth with scored = false
carrying the externally drawn id, its gapY lies within
[minGapHeight, canvasHeight - minGapHeight - gapSize - groundHeight],
and when the drawn id is fresh it identifies the new pipe uniquely. -/
theorem generatePipe_spec (pm : PipeManager) (r newId : ℚ)
    (hr0 : 0 ≤ r) (hr1 : r < 1) (hh : pm.canvasHeight = 568)
    (hfresh : ∀ q ∈ pm.pipes, q.id ≠ newId) :
    ∃ p : Pipe,
      (pm.generatePipe r newId).pipes = pm.pipes ++ [p] ∧
      p.x = pm.canvasWidth ∧
      p.scored = false ∧
      p.id = newId ∧
      minGapHeight ≤ p.gapY ∧
      p.gapY ≤ 568 - minGapHeight - gapSize - groundHeight ∧
      ∀ q ∈ (pm.generatePipe r newId).pipes, q.id = newId → q = p := by
  have hM : pm.canvasHeight - minGapHeight - gapSize - groundHeight -
      minGapHeight = 178 := by
    norm_num [hh, minGapHeight, gapSize, groundHeight]
  refine ⟨⟨pm.canvasWidth,
           minGapHeight + r * (pm.canvasHeight - minGapHeight - gapSize -
             groundHeight - minGapHeight), false, newId⟩,
         rfl, rfl, rfl, rfl, ?_, ?_, ?_⟩
  · show minGapHeight ≤ minGapHeight + r * (pm.canvasHeight - minGapHeight -
      gapSize - groundHeight - minGapHeight)
    rw [hM]
    nlinarith [hr0]
  · show minGapHeight + r * (pm.canvasHeight - minGapHeight - gapSize -
      groundHeight - minGapHeight) ≤ 568 - minGapHeight - gapSize - groundHeight
    rw [hM]
    have : r * 178 < 1 * 178 := by
      apply mul_lt_mul_of_pos_right hr1
      norm_num
    simp only [minGapHeight, gapSize, groundHeight]
    linarith
  · intro q hq hid
    rcases List.mem_append.mp hq with hold | hnew
    · exact absurd hid (hfresh q hold)
    · rcases List.mem_singleton.mp hnew with rfl
      rfl

/-- Claim C5, witness: on the single-pipe field with the draw r = 1/2
and the fresh id 7, the appended pipe sits at x = 320, is unscored,
carries id 7 and its gap offset lies within the margins. -/
theorem generatePipe_witness :
    ∃ p : Pipe,
      (pm320.generatePipe (1/2) 7).pipes = pm320.pipes ++ [p] ∧
      p.x = pm320.canvasWidth ∧
      p.scored = false ∧
      p.id = 7 ∧
      minGapHeight ≤ p.gapY ∧
      p.gapY ≤ 568 - minGapHeight - gapSize - groundHeight ∧
      ∀ q ∈ (pm320.generatePipe (1/2) 7).pipes, q.id = 7 → q = p :=
  generatePipe_spec pm320 (1/2) 7 (by norm_num) (by norm_num) rfl
    (by intro q hq; simp [pm320] at hq; simp [hq])

/-- The checkScore loop scans left to right: when everything before p
is rejected and p qualifies, the scan stops at p. -/
theorem find?_first_qualifying {α : Type} (f : α → Bool) (l1 : List α)
    (p : α) (l2 : List α) (h1 : ∀ q ∈ l1, f q = false) (hp : f p = true) :
    (l1 ++ p :: l2).find? f = some p := by
  induction l1 with
  | nil => simpa using List.find?_cons_of_pos _ hp
  | cons a l ih =>
      rw [List.cons_append, List.find?_cons_of_neg _ (by simp [h1 a (by simp)])]
      exact ih fun q hq => h1 q (by simp [hq])

/-- Claim C6: one checkScore call marks at most one pipe id as scored;
when p is the first pipe in storage order whose right edge is behind
the bird and whose id is unscored, exactly p's id is marked and the
call reports true, even if later pipes also qualify; when no pipe
qualifies the state is returned unchanged with false. -/
theorem checkScore_spec (pm : PipeManager) (birdX : ℚ) :
    ((pm.checkScore birdX).2.scoredPipes.length ≤ pm.scoredPipes.length + 1) ∧
    (∀ p : Pipe, IsFirstQualifying pm birdX p →
      pm.checkScore birdX = (true, { pm with scoredPipes := p.id :: pm.scoredPipes })) ∧
    ((∀ p ∈ pm.pipes, pm.qualifies birdX p = false) →
      pm.checkScore birdX = (false, pm)) := by
  refine ⟨?_, ?_, ?_⟩
  · unfold PipeManager.checkScore
    cases hf : pm.pipes.find? (pm.qualifies birdX) with
    | none => simp
    | some p => simp
  · rintro p ⟨l1, l2, hl, hq, hall⟩
    unfold PipeManager.checkScore
    rw [hl, find?_first_qualifying _ l1 p l2 hall hq]
  · intro hnone
    unfold PipeManager.checkScore
    rw [List.find?_eq_none.mpr fun q hq => by simp [hnone q hq]]

/-- One update call never leaves y negative: the clamp at the end of
Bird.update restores 0. -/
theorem update_y_nonneg (b : Bird) : 0 ≤ b.update.y := by
  unfold Bird.update
  dsimp only
  split_ifs with h1 h2 h3
  · exact le_refl 0
  · exact not_lt.mp h2
  · exact le_refl 0
  · exact not_lt.mp h3

/-- A clamp-free update step: when the new velocity stays below the
fall cap and the new y stays nonnegative, update adds gravity to the
velocity and the velocity to y. -/
theorem update_eval (b : Bird)
    (h1 : ¬ b.velocity + gravity > maxFallVelocity)
    (h2 : ¬ b.y + (b.velocity + gravity) < 0) :
    b.update.velocity = b.velocity + gravity ∧
    b.update.y = b.y + (b.velocity + gravity) := by
  unfold Bird.update
  dsimp only
  simp only [if_neg h1, if_neg h2]
  exact ⟨trivial, trivial⟩

/-- Claim C7: starting from any y ≥ 0, no interleaved sequence of
update and jump calls can drive y negative; moreover whenever an
update would move y below 0, the update clamps y to 0 and zeroes the
velocity. -/
theorem y_nonneg_spec (ops : List BirdOp) (b : Bird) (hb : 0 ≤ b.y) :
    0 ≤ (Bird.runOps ops b).y ∧
    ∀ c : Bird,
      c.y + min (c.velocity + gravity) maxFallVelocity < 0 →
      c.update.y = 0 ∧ c.update.velocity = 0 := by
  constructor
  · induction ops generalizing b with
    | nil => exact hb
    | cons op ops ih =>
        cases op with
        | tick => exact ih b.update (update_y_nonneg b)
        | flap => exact ih b.jump hb
  · intro c hc
    have hmin : (if c.velocity + gravity > maxFallVelocity then maxFallVelocity
        else c.velocity + gravity) = min (c.velocity + gravity) maxFallVelocity := by
      rw [min_def]
      split_ifs <;> linarith
    unfold Bird.update
    dsimp only
    rw [hmin]
    simp only [if_pos hc]
    exact ⟨trivial, trivial⟩

/-- Claim C7, witness: a concrete interleaving of three updates and a
jump from (80, 200) keeps y nonnegative. -/
theorem y_nonneg_witness :
    0 ≤ (Bird.runOps [BirdOp.tick, BirdOp.flap, BirdOp.tick, BirdOp.tick]
      (Bird.init 80 200)).y :=
  (y_nonneg_spec [BirdOp.tick, BirdOp.flap, BirdOp.tick, BirdOp.tick]
    (Bird.init 80 200) (by norm_num [Bird.init])).1

/-- The velocity after n unjumped updates from a nonnegative start
height follows the clamped arithmetic progression, and y stays
nonnegative throughout. -/
theorem updateN_velocity (n : ℕ) (x y : ℚ) (hy : 0 ≤ y) :
    (Bird.updateN n (Bird.init x y)).velocity = min ((n : ℚ) / 2) 12 ∧
    0 ≤ (Bird.updateN n (Bird.init x y)).y := by
  induction n with
  | zero =>
      constructor
      · show (0 : ℚ) = min ((0 : ℕ) / 2 : ℚ) 12
        norm_num
      · exact hy
  | succ n ih =>
      obtain ⟨hv, hy2⟩ := ih
      have step : (Bird.updateN (n + 1) (Bird.init x y)) =
          (Bird.updateN n (Bird.init x y)).update := rfl
      set b := Bird.updateN n (Bird.init x y) with hbdef
      have hcast : ((n + 1 : ℕ) : ℚ) = (n : ℚ) + 1 := by push_cast; ring
      have hclamp : (if b.velocity + gravity > maxFallVelocity then maxFallVelocity
          else b.velocity + gravity) = min (((n + 1 : ℕ) : ℚ) / 2) 12 := by
        rw [hv, gravity, maxFallVelocity, hcast]
        rcases le_total ((n : ℚ) / 2) 12 with hle | hge
        · rw [min_eq_left hle]
          split_ifs with hgt
          · rw [min_eq_right]
            linarith
          · rw [min_eq_left]
            · linarith
            · linarith
        · rw [min_eq_right hge]
          rw [if_pos (by norm_num)]
          rw [min_eq_right]
          linarith
      have hv2nonneg : 0 ≤ min (((n + 1 : ℕ) : ℚ) / 2) 12 := by
        apply le_min <;> positivity
      have hynew : ¬ b.y + (if b.velocity + gravity > maxFallVelocity
          then maxFallVelocity else b.velocity + gravity) < 0 := by
        rw [hclamp]
        push_neg
        exact add_nonneg hy2 hv2nonneg
      rw [step]
      unfold Bird.update
      dsimp only
      rw [hclamp] at hynew ⊢
      simp only [if_neg hynew]
      exact ⟨trivial, add_nonneg hy2 hv2nonneg⟩

/-- Claim C6, witness: on the field pmW both stored pipes qualify at
bird x = 80, yet a single checkScore call marks only the first-stored
pipe's id 1. -/
theorem checkScore_witness :
    pmW.qualifies 80 ⟨10, 120, false, 1⟩ = true ∧
    pmW.qualifies 80 ⟨20, 130, false, 2⟩ = true ∧
    pmW.checkScore 80 = (true, ⟨320, 568, pmW.pipes, [1]⟩) := by
  refine ⟨?_, ?_, ?_⟩
  · simp [PipeManager.qualifies, pmW, pipeWidth]
    norm_num
  · simp [PipeManager.qualifies, pmW, pipeWidth]
    norm_num
  · have h := (checkScore_spec pmW 80).2.1 ⟨10, 120, false, 1⟩
      ⟨[], [⟨20, 130, false, 2⟩], rfl,
       by simp [PipeManager.qualifies, pmW, pipeWidth]; norm_num,
       by simp⟩
    simpa [pmW] using h

/-- Numeric reading of a clamp-free update step: from velocity v and
height y the step produces velocity v2 = v + 0.5 and height y2 = y + v2,
provided v2 stays below the cap and y2 stays nonnegative. -/
theorem update_eval_num (b : Bird) (v y v2 y2 : ℚ)
    (hv : b.velocity = v) (hy : b.y = y)
    (hv2 : v + 1/2 = v2) (hy2 : y + v2 = y2)
    (h1 : ¬ v2 > 12) (h2 : ¬ y2 < 0) :
    b.update.velocity = v2 ∧ b.update.y = y2 := by
  have h1' : ¬ b.velocity + gravity > maxFallVelocity := by
    rw [hv, gravity, hv2, maxFallVelocity]
    exact h1
  have h2' : ¬ b.y + (b.velocity + gravity) < 0 := by
    rw [hy, hv, gravity, hv2, hy2]
    exact h2
  have h := update_eval b h1' h2'
  constructor
  · rw [h.1, hv, gravity, hv2]
  · rw [h.2, hy, hv, gravity, hv2, hy2]

/-- Claim C4: with no jump applied, the velocity after n update calls
from a fresh Body equals min(n * 0.5, 12); concretely five updates
from (80, 200) yield velocity 2.5 and y = 207.5. -/
theorem velocity_clamp_spec :
    (∀ (n : ℕ) (x y : ℚ), 0 ≤ y →
      (Bird.updateN n (Bird.init x y)).velocity = min ((n : ℚ) / 2) 12) ∧
    (Bird.updateN 5 (Bird.init 80 200)).velocity = 5/2 ∧
    (Bird.updateN 5 (Bird.init 80 200)).y = 415/2 := by
  have s1 := update_eval_num (Bird.init 80 200) 0 200 (1/2) (401/2)
    rfl rfl (by norm_num) (by norm_num) (by norm_num) (by norm_num)
  have s2 := update_eval_num (Bird.init 80 200).update (1/2) (401/2) 1 (403/2)
    s1.1 s1.2 (by norm_num) (by norm_num) (by norm_num) (by norm_num)
  have s3 := update_eval_num (Bird.init 80 200).update.update 1 (403/2)
    (3/2) 203 s2.1 s2.2 (by norm_num) (by norm_num) (by norm_num) (by norm_num)
  have s4 := update_eval_num (Bird.init 80 200).update.update.update (3/2) 203
    2 205 s3.1 s3.2 (by norm_num) (by norm_num) (by norm_num) (by norm_num)
  have s5 := update_eval_num (Bird.init 80 200).update.update.update.update 2 205
    (5/2) (415/2) s4.1 s4.2 (by norm_num) (by norm_num) (by norm_num) (by norm_num)
  have h5 : Bird.updateN 5 (Bird.init 80 200) =
      (Bird.init 80 200).update.update.update.update.update := rfl
  exact ⟨fun n x y hy => (updateN_velocity n x y hy).1,
    by rw [h5]; exact s5.1, by rw [h5]; exact s5.2⟩

/-- Claim C4, witness: the uniform clamp formula instantiated at
n = 30 from (80, 200): the velocity has saturated at 12. -/
theorem velocity_clamp_witness :
    (Bird.updateN 30 (Bird.init 80 200)).velocity = min ((30 : ℚ) / 2) 12 :=
  (velocity_clamp_spec.1 30 80 200 (by norm_num))

/-- Unfolding of one runUpdates step. -/
theorem runUpdates_succ (pm : PipeManager) (n : ℕ) :
    runUpdates pm (n + 1) = (runUpdates pm n).update 0 ((n : ℚ) + 1) := rfl

/-- One update on a single-pipe field when the moved pipe survives and
triggers no generation: only x decreases by pipeSpeed. -/
theorem update_one_pipe (a gy : ℚ) (sc : Bool) (pid r nid : ℚ)
    (hkeep : ¬ (a - pipeSpeed + pipeWidth < 0))
    (hgen : ¬ (a - pipeSpeed < 320 - pipeSpacing)) :
    PipeManager.update ⟨320, 568, [⟨a, gy, sc, pid⟩], []⟩ r nid =
      ⟨320, 568, [⟨a - pipeSpeed, gy, sc, pid⟩], []⟩ := by
  unfold PipeManager.update
  simp only [moveAndFilter, removedIdsOf, movePipe, if_neg hkeep,
    List.filter_nil, List.getLast?_singleton]
  rw [if_neg hgen]

/-- One update on a single-pipe field when the moved pipe survives but
has fallen behind the spacing threshold: a fresh pipe is appended at
x = 320. -/
theorem update_one_pipe_gen (a gy : ℚ) (sc : Bool) (pid r nid : ℚ)
    (hkeep : ¬ (a - pipeSpeed + pipeWidth < 0))
    (hgen : a - pipeSpeed < 320 - pipeSpacing) :
    PipeManager.update ⟨320, 568, [⟨a, gy, sc, pid⟩], []⟩ r nid =
      ⟨320, 568, [⟨a - pipeSpeed, gy, sc, pid⟩,
        ⟨320, minGapHeight + r * (568 - minGapHeight - gapSize - groundHeight -
          minGapHeight), false, nid⟩], []⟩ := by
  unfold PipeManager.update
  simp only [moveAndFilter, removedIdsOf, movePipe, if_neg hkeep,
    List.filter_nil, List.getLast?_singleton]
  rw [if_pos hgen]
  rfl

/-- One update on a two-pipe field when both moved pipes survive and
the trailing pipe triggers no generation. -/
theorem update_two_pipes (a b gy1 gy2 : ℚ) (sc1 sc2 : Bool) (pid1 pid2 r nid : ℚ)
    (hkeep1 : ¬ (a - pipeSpeed + pipeWidth < 0))
    (hkeep2 : ¬ (b - pipeSpeed + pipeWidth < 0))
    (hgen : ¬ (b - pipeSpeed < 320 - pipeSpacing)) :
    PipeManager.update ⟨320, 568, [⟨a, gy1, sc1, pid1⟩, ⟨b, gy2, sc2, pid2⟩], []⟩ r nid =
      ⟨320, 568, [⟨a - pipeSpeed, gy1, sc1, pid1⟩,
        ⟨b - pipeSpeed, gy2, sc2, pid2⟩], []⟩ := by
  unfold PipeManager.update
  simp only [moveAndFilter, removedIdsOf, movePipe, if_neg hkeep1, if_neg hkeep2,
    List.filter_nil]
  rw [show ([⟨a - pipeSpeed, gy1, sc1, pid1⟩,
    ⟨b - pipeSpeed, gy2, sc2, pid2⟩] : List Pipe).getLast? =
      some ⟨b - pipeSpeed, gy2, sc2, pid2⟩ from rfl]
  dsimp only
  rw [if_neg hgen]

/-- One update on a two-pipe field when the leading moved pipe has
fully left the screen: it is spliced out, the trailing pipe survives
and no generation is triggered. -/
theorem update_two_pipes_drop1 (a b gy1 gy2 : ℚ) (sc1 sc2 : Bool) (pid1 pid2 r nid : ℚ)
    (hdrop : a - pipeSpeed + pipeWidth < 0)
    (hkeep2 : ¬ (b - pipeSpeed + pipeWidth < 0))
    (hgen : ¬ (b - pipeSpeed < 320 - pipeSpacing)) :
    PipeManager.update ⟨320, 568, [⟨a, gy1, sc1, pid1⟩, ⟨b, gy2, sc2, pid2⟩], []⟩ r nid =
      ⟨320, 568, [⟨b - pipeSpeed, gy2, sc2, pid2⟩], []⟩ := by
  unfold PipeManager.update
  simp only [moveAndFilter, removedIdsOf, movePipe, if_pos hdrop, if_neg hkeep2,
    List.filter_nil, List.getLast?_singleton]
  rw [if_neg hgen]

/-- For the first 100 updates the original pipe is alone on the field,
sliding left by 2 per call. -/
theorem phase1 (k : ℕ) (hk : k ≤ 100) :
    runUpdates pm320 k =
      ⟨320, 568, [⟨320 - 2 * (k : ℚ), 120, false, 0⟩], []⟩ := by
  induction k with
  | zero => norm_num [runUpdates, pm320]
  | succ n ih =>
      have hn : (n : ℚ) ≤ 99 := by
        have : n ≤ 99 := by omega
        exact_mod_cast this
      rw [runUpdates_succ, ih (by omega),
        update_one_pipe _ _ _ _ _ _
          (by rw [pipeSpeed, pipeWidth]; push_neg; linarith)
          (by rw [pipeSpeed, pipeSpacing]; push_neg; linarith)]
      have : (320 : ℚ) - 2 * (n : ℚ) - pipeSpeed = 320 - 2 * ((n + 1 : ℕ) : ℚ) := by
        rw [pipeSpeed]
        push_cast
        ring
      rw [this]

/-- At update 101 the original pipe has reached x = 118 and a second
pipe (id 101) is generated at x = 320 with gap offset 120 (r = 0). -/
theorem run101 :
    runUpdates pm320 101 =
      ⟨320, 568, [⟨118, 120, false, 0⟩, ⟨320, 120, false, 101⟩], []⟩ := by
  rw [show (101 : ℕ) = 100 + 1 from rfl, runUpdates_succ,
    phase1 100 (by norm_num),
    update_one_pipe_gen _ _ _ _ _ _
      (by rw [pipeSpeed, pipeWidth]; push_cast; norm_num)
      (by rw [pipeSpeed, pipeSpacing]; push_cast; norm_num)]
  norm_num [minGapHeight, gapSize, groundHeight, pipeSpeed]

/-- For the next 79 updates both pipes slide left by 2 per call; the
original pipe reaches x = -40 at update 180. -/
theorem phase2 (k : ℕ) (hk : k ≤ 79) :
    runUpdates pm320 (101 + k) =
      ⟨320, 568, [⟨118 - 2 * (k : ℚ), 120, false, 0⟩,
        ⟨320 - 2 * (k : ℚ), 120, false, 101⟩], []⟩ := by
  induction k with
  | zero =>
      rw [show 101 + 0 = 101 from rfl, run101]
      norm_num
  | succ n ih =>
      have hn : (n : ℚ) ≤ 78 := by
        have : n ≤ 78 := by omega
        exact_mod_cast this
      rw [show 101 + (n + 1) = (101 + n) + 1 from rfl, runUpdates_succ,
        ih (by omega),
        update_two_pipes _ _ _ _ _ _ _ _ _ _
          (by rw [pipeSpeed, pipeWidth]; push_neg; linarith)
          (by rw [pipeSpeed, pipeWidth]; push_neg; linarith)
          (by rw [pipeSpeed, pipeSpacing]; push_neg; linarith)]
      have e1 : (118 : ℚ) - 2 * (n : ℚ) - pipeSpeed = 118 - 2 * ((n + 1 : ℕ) : ℚ) := by
        rw [pipeSpeed]
        push_cast
        ring
      have e2 : (320 : ℚ) - 2 * (n : ℚ) - pipeSpeed = 320 - 2 * ((n + 1 : ℕ) : ℚ) := by
        rw [pipeSpeed]
        push_cast
        ring
      rw [e1, e2]

/-- After 180 updates the original pipe sits at x = -40: its right
edge is at 0, so the removal test x + 40 < 0 still fails. -/
theorem run180 :
    runUpdates pm320 180 =
      ⟨320, 568, [⟨-40, 120, false, 0⟩, ⟨162, 120, false, 101⟩], []⟩ := by
  rw [show (180 : ℕ) = 101 + 79 from rfl, phase2 79 (by norm_num)]
  norm_num

/-- The 181st update splices the original pipe out: it moves to
x = -42, where -42 + 40 < 0. -/
theorem run181 :
    runUpdates pm320 181 =
      ⟨320, 568, [⟨160, 120, false, 101⟩], []⟩ := by
  rw [show (181 : ℕ) = 180 + 1 from rfl, runUpdates_succ, run180,
    update_two_pipes_drop1 _ _ _ _ _ _ _ _ _ _
      (by rw [pipeSpeed, pipeWidth]; norm_num)
      (by rw [pipeSpeed, pipeWidth]; norm_num)
      (by rw [pipeSpeed, pipeSpacing]; norm_num)]
  norm_num [pipeSpeed]

/-- Claim C1, counterexample: after exactly 140 update calls the
obstacle generated at x = 320 (id 0) is still on the field, at x = 40
with its right edge at 80, so 140 calls do not reach the removal
condition x + width < 0. -/
theorem pipe_not_removed_after_140 :
    runUpdates pm320 140 =
      ⟨320, 568, [⟨40, 120, false, 0⟩, ⟨242, 120, false, 101⟩], []⟩ ∧
    (0 : ℚ) ∈ (runUpdates pm320 140).pipes.map Pipe.id := by
  have h : runUpdates pm320 140 =
      ⟨320, 568, [⟨40, 120, false, 0⟩, ⟨242, 120, false, 101⟩], []⟩ := by
    rw [show (140 : ℕ) = 101 + 39 from rfl, phase2 39 (by norm_num)]
    norm_num
  refine ⟨h, ?_⟩
  rw [h]
  simp

/-- Claim C1, amended: the obstacle generated at x = 320 with pipe
speed 2 and width 40 needs exactly 181 update calls before the removal
condition x + width < 0 holds and it leaves the field: it is still
present after 180 calls and gone after 181. -/
theorem pipe_removed_after_181 :
    (0 : ℚ) ∈ (runUpdates pm320 180).pipes.map Pipe.id ∧
    ¬ (0 : ℚ) ∈ (runUpdates pm320 181).pipes.map Pipe.id := by
  constructor
  · rw [run180]
    simp
  · rw [run181]
    norm_num

end Flappy
